import Mathlib

/-!
Shallow embedding of the compliance evaluation engine of
`src/sop_comparator.py` (class `SOPComparator`), together with theorems
settling the specification claims about it.

Modelling conventions:
* Python floats carrying similarity scores, thresholds and timestamps are
  modelled as rationals (`ℚ`); every comparison the code performs on them is
  an exact order comparison, which `ℚ` models faithfully.
* Python `round(x, d)` is modelled as exact round-half-to-even on `ℚ`
  (`pyRound`); no claim depends on the tie behaviour.
* The sentence-transformer model is the external Similarity Provider: it is
  modelled as an injected function `simf : String → String → ℚ`.
* Python dict results become structures with the same field names.
* `find_best_match` can fail at runtime (torch `argmax` of an empty tensor
  raises `RuntimeError`), so it returns `Except SopError`; the analysis loop
  propagates that failure, as an uncaught Python exception would.
-/

namespace SopCompare

/-- Round half to even on an integer scale: the behaviour of Python `round`
on an exact value. -/
def roundHalfEven (x : ℚ) : ℤ :=
let n := Int.floor x
let frac := x - n
if frac < 1/2 then n
else if 1/2 < frac then n + 1
else if n % 2 = 0 then n else n + 1

/-- Python `round(x, d)` on an exact rational. -/
def pyRound (x : ℚ) (d : ℕ) : ℚ :=
(roundHalfEven (x * 10 ^ d) : ℚ) / 10 ^ d

/-- One SOP step dictionary; the engine reads `step["action"]` and
`step.get("required_tools", [])`. -/
structure SopStep where
  action : String
  required_tools : List String
deriving DecidableEq

/-- The SOP document fields the engine reads: `sop.get("steps", [])` and
`sop.get("safety_equipment", [])`. -/
structure Sop where
  steps : List SopStep
  safety_equipment : List String
deriving DecidableEq

/-- One video-action dictionary, with the `.get` defaults of
`analyze_sequence` already applied. -/
structure Observation where
  worker_action : String
  timestamp : ℚ
  tools_visible : List String
  safety_equipment : List String
  location_zone : String
  potential_hazards : List String
deriving DecidableEq

/-- Result dictionary of `check_tool_compliance`. -/
structure ToolCheck where
  is_compliant : Bool
  missing_tools : List String
  wrong_tools : List String
  observed : List String
  required : List String
deriving DecidableEq

/-- Result dictionary of `check_safety_equipment`. -/
structure SafetyCheck where
  is_compliant : Bool
  missing_equipment : List String
  observed : List String
  required : List String
deriving DecidableEq

/-- Embedding of `SOPComparator.check_tool_compliance` (sop_comparator.py lines 100-127). -/
def check_tool_compliance (observed_tools required_tools : List String) : ToolCheck :=
let observed_tools_lower := observed_tools.map String.toLower
let required_tools_lower := required_tools.map String.toLower
let missing_tools := required_tools_lower.filter
  (fun tool => !(observed_tools_lower.contains tool))
let wrong_tools := observed_tools_lower.filter
  (fun tool => !(required_tools_lower.contains tool) && tool != "")
{ is_compliant := missing_tools.length == 0
  missing_tools := missing_tools
  wrong_tools := wrong_tools
  observed := observed_tools_lower
  required := required_tools_lower }

/-- Embedding of `SOPComparator.check_safety_equipment` (sop_comparator.py lines 129-150). -/
def check_safety_equipment (observed_equipment required_equipment : List String) : SafetyCheck :=
let observed_lower := observed_equipment.map String.toLower
let required_lower := required_equipment.map String.toLower
let missing_equipment := required_lower.filter
  (fun eq => !(observed_lower.contains eq))
{ is_compliant := missing_equipment.length == 0
  missing_equipment := missing_equipment
  observed := observed_lower
  required := required_lower }

/-- Failure kinds observable from `find_best_match`.  The code performs no
input validation: with an empty step list the failure that actually occurs is
torch raising `RuntimeError` at `similarities.argmax()` (reduction over an
empty tensor).  `invalidInput` is the validation error the specification
prescribes for that case; no code path produces it. -/
inductive SopError where
  | invalidInput : SopError
  | runtimeEmptyArgmax : SopError
deriving DecidableEq

/-- Behaviour of `torch.Tensor.argmax` over a row of scores: index (and value) of the
first occurrence of the maximum.  `bi`/`bv` are the best index and value so
far, `i` the absolute index of the head of the remaining list.  torch
documents that with several maximal values the first index is returned,
which the strict `bv < v` update reproduces. -/
def argmaxGo (bi : ℕ) (bv : ℚ) (i : ℕ) : List ℚ → ℕ × ℚ
  | [] => (bi, bv)
  | v :: rest => if bv < v then argmaxGo i v (i + 1) rest else argmaxGo bi bv (i + 1) rest

/-- Embedding of `SOPComparator.find_best_match` (sop_comparator.py lines 68-98).
`simf` is the injected Similarity Provider (`util.cos_sim` of the two
embeddings).  The batched encode + `cos_sim` produce one score per step
description; `argmax` picks the best.  On an empty step list the tensor of
similarities is empty and `argmax` raises. -/
def find_best_match (simf : String → String → ℚ) (action : String)
    (sop_steps : List SopStep) : Except SopError (ℕ × ℚ × SopStep) :=
let sop_descriptions := sop_steps.map (fun step => step.action)
let similarities := sop_descriptions.map (fun d => simf action d)
match similarities with
| [] => Except.error SopError.runtimeEmptyArgmax
| v :: rest =>
  let best_idx := (argmaxGo 0 v 1 rest).1
  let best_score := (v :: rest).getD best_idx 0
  let best_step := sop_steps.getD best_idx { action := "", required_tools := [] }
  Except.ok (best_idx, best_score, best_step)

/-- One per-observation result dictionary built by `analyze_sequence`
(sop_comparator.py lines 206-219). -/
structure EvalResult where
  frame_number : ℕ
  timestamp : ℚ
  observed_action : String
  matched_sop_step : String
  step_number : ℕ
  similarity_score : ℚ
  is_deviation : Bool
  severity : String
  tool_compliance : ToolCheck
  safety_compliance : SafetyCheck
  location : String
  potential_hazards : List String
deriving DecidableEq

/-- The deviation test of `analyze_sequence` (sop_comparator.py lines
188-192): `similarity < self.threshold or not tool_check["is_compliant"]
or not safety_check["is_compliant"]`. -/
def isDeviation (threshold similarity : ℚ) (tool_ok safety_ok : Bool) : Bool :=
decide (similarity < threshold) || !tool_ok || !safety_ok

/-- The severity ladder of `analyze_sequence` (sop_comparator.py lines
195-204), before the `"none"` replacement. -/
def classifySeverity (threshold similarity : ℚ) (tool_ok safety_ok : Bool) : String :=
if similarity < 1/2 then "high"
else if similarity < threshold then "medium"
else if !safety_ok then "high"
else if !tool_ok then "medium"
else "low"

/-- The severity actually stored in the result (sop_comparator.py line 214):
`severity if is_deviation else "none"`. -/
def reportedSeverity (threshold similarity : ℚ) (tool_ok safety_ok : Bool) : String :=
if isDeviation threshold similarity tool_ok safety_ok then
  classifySeverity threshold similarity tool_ok safety_ok
else "none"

/-- The body of the per-observation loop of `SOPComparator.analyze_sequence`
(sop_comparator.py lines 168-221) for loop index `i` and action dictionary
`a`; `threshold` is `self.threshold`. -/
def analyze_action (simf : String → String → ℚ) (threshold : ℚ) (sop : Sop)
    (i : ℕ) (a : Observation) : Except SopError EvalResult :=
match find_best_match simf a.worker_action sop.steps with
| Except.error e => Except.error e
| Except.ok (step_idx, similarity, matched_step) =>
  let tool_check := check_tool_compliance a.tools_visible matched_step.required_tools
  let safety_check := check_safety_equipment a.safety_equipment sop.safety_equipment
  let is_dev := isDeviation threshold similarity tool_check.is_compliant safety_check.is_compliant
  Except.ok
    { frame_number := i
      timestamp := a.timestamp
      observed_action := a.worker_action
      matched_sop_step := matched_step.action
      step_number := step_idx + 1
      similarity_score := pyRound similarity 3
      is_deviation := is_dev
      severity := reportedSeverity threshold similarity tool_check.is_compliant safety_check.is_compliant
      tool_compliance := tool_check
      safety_compliance := safety_check
      location := a.location_zone
      potential_hazards := a.potential_hazards }

/-- The `for i, action_data in enumerate(video_actions)` loop of
`analyze_sequence`, threading the loop index; an exception inside the loop
aborts the whole analysis. -/
def analyzeGo (simf : String → String → ℚ) (threshold : ℚ) (sop : Sop)
    (i : ℕ) : List Observation → Except SopError (List EvalResult)
  | [] => Except.ok []
  | a :: rest =>
    match analyze_action simf threshold sop i a with
    | Except.error e => Except.error e
    | Except.ok r =>
      match analyzeGo simf threshold sop (i + 1) rest with
      | Except.error e => Except.error e
      | Except.ok rs => Except.ok (r :: rs)

/-- Embedding of `SOPComparator.analyze_sequence` (sop_comparator.py lines 152-227). -/
def analyze_sequence (simf : String → String → ℚ) (threshold : ℚ)
    (video_actions : List Observation) (sop : Sop) :
    Except SopError (List EvalResult) :=
analyzeGo simf threshold sop 0 video_actions

/-- Summary dictionary of `generate_summary`. -/
structure SequenceSummary where
  total_frames_analyzed : ℕ
  total_deviations : ℕ
  high_severity_count : ℕ
  medium_severity_count : ℕ
  compliance_rate : ℚ
  average_similarity : ℚ
  tool_violations : ℕ
  safety_violations : ℕ
  deviation_timestamps : List ℚ
deriving DecidableEq

/-- Embedding of `SOPComparator.generate_summary` (sop_comparator.py lines 229-259). -/
def generate_summary (compliance_results : List EvalResult) : SequenceSummary :=
let total_frames := compliance_results.length
let deviations := compliance_results.filter (fun r => r.is_deviation)
let high_severity := deviations.filter (fun r => r.severity == "high")
let medium_severity := deviations.filter (fun r => r.severity == "medium")
let avg_similarity : ℚ :=
  if total_frames > 0 then
    (compliance_results.map (fun r => r.similarity_score)).sum / total_frames
  else 0
let tool_violations :=
  (compliance_results.filter (fun r => !r.tool_compliance.is_compliant)).length
let safety_violations :=
  (compliance_results.filter (fun r => !r.safety_compliance.is_compliant)).length
{ total_frames_analyzed := total_frames
  total_deviations := deviations.length
  high_severity_count := high_severity.length
  medium_severity_count := medium_severity.length
  compliance_rate :=
    if total_frames > 0 then
      pyRound (((total_frames : ℚ) - deviations.length) / total_frames * 100) 1
    else 0
  average_similarity := pyRound avg_similarity 3
  tool_violations := tool_violations
  safety_violations := safety_violations
  deviation_timestamps := deviations.map (fun r => r.timestamp) }

/-- Configuration failure kind the specification prescribes for an
out-of-range threshold.  No code path in `SOPComparator.__init__` produces
it. -/
inductive ConfigError where
  | configurationError : ConfigError
deriving DecidableEq

/-- The engine-relevant state built by `SOPComparator.__init__`. -/
structure SOPComparator where
  threshold : ℚ
deriving DecidableEq

/-- Embedding of `SOPComparator.__init__` (sop_comparator.py lines 19-29), restricted to
the threshold configuration: `self.threshold =
float(os.getenv("SIMILARITY_THRESHOLD", 0.70))`.  `env_threshold` is the
parsed value of the environment variable when it is set.  The constructor
performs no range validation, so it never returns an error; the `Except`
wrapper is the place where the specified `ConfigurationError` would have to
appear.  (Loading the sentence-transformer model is external I/O outside
the claims.) -/
def initComparator (env_threshold : Option ℚ) : Except ConfigError SOPComparator :=
Except.ok { threshold := env_threshold.getD (7/10) }

/-! ### Properties of the step matcher -/



/-! ### Properties of the step matcher -/

/-- Full characterisation of the `argmax` fold: either the accumulator wins
(and every remaining score is at most the accumulated best), or the result is
the first maximum of the remainder, strictly above the accumulator and
strictly above every earlier remaining score. -/
theorem argmaxGo_spec (rest : List ℚ) : ∀ (bi : ℕ) (bv : ℚ) (i : ℕ),
    (argmaxGo bi bv i rest = (bi, bv) ∧ ∀ j (h : j < rest.length), rest[j] ≤ bv) ∨
    (∃ j, ∃ h : j < rest.length,
      argmaxGo bi bv i rest = (i + j, rest[j]) ∧ bv < rest[j] ∧
      (∀ k (hk : k < rest.length), rest[k] ≤ rest[j]) ∧
      (∀ k (hk : k < rest.length), k < j → rest[k] < rest[j])) := by
  induction rest with
  | nil =>
    intro bi bv i
    exact Or.inl ⟨rfl, fun j h => absurd h (Nat.not_lt_zero j)⟩
  | cons v rest ih =>
    intro bi bv i
    by_cases hv : bv < v
    · have hstep : argmaxGo bi bv i (v :: rest) = argmaxGo i v (i + 1) rest := by
        simp [argmaxGo, hv]
      rcases ih i v (i + 1) with ⟨heq, hle⟩ | ⟨j, hj, heq, hlt, hmax, hleast⟩
      · refine Or.inr ⟨0, Nat.succ_pos _, ?_, ?_, ?_, ?_⟩
        · rw [hstep, heq]
          simp
        · simpa using hv
        · intro k hk
          cases k with
          | zero => simp
          | succ k =>
            simp only [List.getElem_cons_succ, List.getElem_cons_zero]
            exact hle k (Nat.lt_of_succ_lt_succ hk)
        · intro k hk hk0
          exact absurd hk0 (Nat.not_lt_zero k)
      · refine Or.inr ⟨j + 1, Nat.succ_lt_succ hj, ?_, ?_, ?_, ?_⟩
        · rw [hstep, heq]
          simp only [List.getElem_cons_succ]
          have harith : i + 1 + j = i + (j + 1) := by omega
          rw [harith]
        · simpa using lt_trans hv hlt
        · intro k hk
          cases k with
          | zero =>
            simp only [List.getElem_cons_succ, List.getElem_cons_zero]
            exact le_of_lt hlt
          | succ k =>
            simp only [List.getElem_cons_succ]
            exact hmax k (Nat.lt_of_succ_lt_succ hk)
        · intro k hk hkj
          cases k with
          | zero =>
            simp only [List.getElem_cons_succ, List.getElem_cons_zero]
            exact hlt
          | succ k =>
            simp only [List.getElem_cons_succ]
            exact hleast k (Nat.lt_of_succ_lt_succ hk) (Nat.lt_of_succ_lt_succ hkj)
    · have hstep : argmaxGo bi bv i (v :: rest) = argmaxGo bi bv (i + 1) rest := by
        simp [argmaxGo, hv]
      have hvle : v ≤ bv := le_of_not_lt hv
      rcases ih bi bv (i + 1) with ⟨heq, hle⟩ | ⟨j, hj, heq, hlt, hmax, hleast⟩
      · refine Or.inl ⟨by rw [hstep, heq], ?_⟩
        intro k hk
        cases k with
        | zero => simpa using hvle
        | succ k =>
          simp only [List.getElem_cons_succ]
          exact hle k (Nat.lt_of_succ_lt_succ hk)
      · refine Or.inr ⟨j + 1, Nat.succ_lt_succ hj, ?_, ?_, ?_, ?_⟩
        · rw [hstep, heq]
          simp only [List.getElem_cons_succ]
          have harith : i + 1 + j = i + (j + 1) := by omega
          rw [harith]
        · simpa using hlt
        · intro k hk
          cases k with
          | zero =>
            simp only [List.getElem_cons_succ, List.getElem_cons_zero]
            exact le_of_lt (lt_of_le_of_lt hvle hlt)
          | succ k =>
            simp only [List.getElem_cons_succ]
            exact hmax k (Nat.lt_of_succ_lt_succ hk)
        · intro k hk hkj
          cases k with
          | zero =>
            simp only [List.getElem_cons_succ, List.getElem_cons_zero]
            exact lt_of_le_of_lt hvle hlt
          | succ k =>
            simp only [List.getElem_cons_succ]
            exact hleast k (Nat.lt_of_succ_lt_succ hk) (Nat.lt_of_succ_lt_succ hkj)

/-- The `argmax` call of `find_best_match` on a non-empty score row
`v :: rest` (head score `v` is the accumulator, as in the fold): the
returned index is in bounds, its score is the row's maximum, and every
strictly earlier score is strictly smaller (so it is the first maximum). -/
theorem argmax_cons_spec (v : ℚ) (rest : List ℚ) :
    ∃ hidx : (argmaxGo 0 v 1 rest).1 < (v :: rest).length,
      (argmaxGo 0 v 1 rest).2 = (v :: rest)[(argmaxGo 0 v 1 rest).1] ∧
      (∀ k (hk : k < (v :: rest).length), (v :: rest)[k] ≤ (argmaxGo 0 v 1 rest).2) ∧
      (∀ k (hk : k < (v :: rest).length),
        k < (argmaxGo 0 v 1 rest).1 → (v :: rest)[k] < (argmaxGo 0 v 1 rest).2) := by
  rcases argmaxGo_spec rest 0 v 1 with ⟨heq, hle⟩ | ⟨j, hj, heq, hlt, hmax, hleast⟩
  · rw [heq]
    refine ⟨by simp, by simp, ?_, ?_⟩
    · intro k hk
      cases k with
      | zero => simp
      | succ k =>
        simp only [List.getElem_cons_succ]
        exact hle k (Nat.lt_of_succ_lt_succ hk)
    · intro k hk hk0
      exact absurd hk0 (Nat.not_lt_zero k)
  · rw [heq]
    have hj1 : 1 + j < (v :: rest).length := by
      simp only [List.length_cons]
      omega
    have hidxval : (v :: rest)[1 + j] = rest[j] := by
      have h1j : 1 + j = j + 1 := by omega
      simp only [h1j, List.getElem_cons_succ]
    refine ⟨hj1, by rw [hidxval], ?_, ?_⟩
    · intro k hk
      cases k with
      | zero =>
        simpa using le_of_lt hlt
      | succ k =>
        simp only [List.getElem_cons_succ]
        exact hmax k (Nat.lt_of_succ_lt_succ hk)
    · intro k hk hkj
      cases k with
      | zero =>
        simpa using hlt
      | succ k =>
        simp only [List.getElem_cons_succ]
        exact hleast k (Nat.lt_of_succ_lt_succ hk) (by omega)

/-- Contract of `find_best_match` on a successful return: the index is in
bounds, the returned step and score are the ones at that index, the score is
the maximum similarity over all steps, and the index is the first one
attaining that maximum. -/
theorem find_best_match_spec (simf : String → String → ℚ) (action : String)
    (steps : List SopStep) (i : ℕ) (s : ℚ) (st : SopStep)
    (h : find_best_match simf action steps = Except.ok (i, s, st)) :
    ∃ hi : i < steps.length,
      st = steps[i] ∧ s = simf action steps[i].action ∧
      (∀ j (hj : j < steps.length), simf action steps[j].action ≤ s) ∧
      (∀ j (hj : j < steps.length), simf action steps[j].action = s → i ≤ j) := by
  cases steps with
  | nil => exact absurd h (by simp [find_best_match])
  | cons st0 sts =>
    have key : find_best_match simf action (st0 :: sts)
        = Except.ok
          ((argmaxGo 0 (simf action st0.action) 1
              ((sts.map (fun step => step.action)).map (fun d => simf action d))).1,
            ((simf action st0.action) ::
                (sts.map (fun step => step.action)).map (fun d => simf action d)).getD
              (argmaxGo 0 (simf action st0.action) 1
                ((sts.map (fun step => step.action)).map (fun d => simf action d))).1 0,
            (st0 :: sts).getD
              (argmaxGo 0 (simf action st0.action) 1
                ((sts.map (fun step => step.action)).map (fun d => simf action d))).1
              { action := "", required_tools := [] }) := rfl
    rw [key] at h
    simp only [Except.ok.injEq, Prod.mk.injEq] at h
    obtain ⟨hi1, hs1, hst1⟩ := h
    obtain ⟨hidx, hval, hmax, hleast⟩ :=
      argmax_cons_spec (simf action st0.action)
        ((sts.map (fun step => step.action)).map (fun d => simf action d))
    have hlen : ((simf action st0.action) ::
        (sts.map (fun step => step.action)).map (fun d => simf action d)).length
        = (st0 :: sts).length := by
      simp
    have hbridge : ∀ k (hk : k < (st0 :: sts).length)
        (hk2 : k < ((simf action st0.action) ::
          (sts.map (fun step => step.action)).map (fun d => simf action d)).length),
        ((simf action st0.action) ::
          (sts.map (fun step => step.action)).map (fun d => simf action d))[k]
          = simf action ((st0 :: sts)[k]).action := by
      intro k hk hk2
      cases k with
      | zero => rfl
      | succ k =>
        simp only [List.getElem_cons_succ]
        have hk3 : k < ((sts.map (fun step => step.action)).map (fun d => simf action d)).length := by
          simp only [List.length_cons] at hk2
          omega
        rw [List.getElem_map, List.getElem_map]
    have hi : i < (st0 :: sts).length := by
      rw [← hi1, ← hlen]
      exact hidx
    have hs2 : s = ((simf action st0.action) ::
        (sts.map (fun step => step.action)).map (fun d => simf action d))[
          (argmaxGo 0 (simf action st0.action) 1
            ((sts.map (fun step => step.action)).map (fun d => simf action d))).1] := by
      rw [← hs1, List.getD_eq_getElem _ _ hidx]
    refine ⟨hi, ?_, ?_, ?_, ?_⟩
    · rw [← hst1, List.getD_eq_getElem _ _ (by rw [hi1]; exact hi)]
      simp only [hi1]
    · rw [hs2, hbridge _ (by rw [hi1]; exact hi) hidx]
      simp only [hi1]
    · intro j hj
      have hj2 : j < ((simf action st0.action) ::
          (sts.map (fun step => step.action)).map (fun d => simf action d)).length := by
        omega
      rw [← hbridge j hj hj2, hs2, ← hval]
      exact hval ▸ hmax j hj2
    · intro j hj hjs
      by_contra hc
      push_neg at hc
      have hj2 : j < ((simf action st0.action) ::
          (sts.map (fun step => step.action)).map (fun d => simf action d)).length := by
        omega
      have hlt2 := hleast j hj2 (by rw [hi1]; exact hc)
      rw [hbridge j hj hj2, hjs] at hlt2
      rw [hs2, ← hval] at hlt2
      exact lt_irrefl _ hlt2

/-! ### Shape of the per-observation results -/

/-- A successful `analyze_action` is exactly the result dictionary built from
the best match and the two compliance checks. -/
theorem analyze_action_spec (simf : String → String → ℚ) (threshold : ℚ)
    (sop : Sop) (i : ℕ) (a : Observation) (r : EvalResult)
    (h : analyze_action simf threshold sop i a = Except.ok r) :
    ∃ step_idx s st,
      find_best_match simf a.worker_action sop.steps = Except.ok (step_idx, s, st) ∧
      r = { frame_number := i
            timestamp := a.timestamp
            observed_action := a.worker_action
            matched_sop_step := st.action
            step_number := step_idx + 1
            similarity_score := pyRound s 3
            is_deviation := isDeviation threshold s
              (check_tool_compliance a.tools_visible st.required_tools).is_compliant
              (check_safety_equipment a.safety_equipment sop.safety_equipment).is_compliant
            severity := reportedSeverity threshold s
              (check_tool_compliance a.tools_visible st.required_tools).is_compliant
              (check_safety_equipment a.safety_equipment sop.safety_equipment).is_compliant
            tool_compliance := check_tool_compliance a.tools_visible st.required_tools
            safety_compliance := check_safety_equipment a.safety_equipment sop.safety_equipment
            location := a.location_zone
            potential_hazards := a.potential_hazards } := by
  cases hm : find_best_match simf a.worker_action sop.steps with
  | error e =>
    exact absurd h (by simp [analyze_action, hm])
  | ok triple =>
    obtain ⟨step_idx, s, st⟩ := triple
    refine ⟨step_idx, s, st, rfl, ?_⟩
    have key : analyze_action simf threshold sop i a
        = Except.ok
          { frame_number := i
            timestamp := a.timestamp
            observed_action := a.worker_action
            matched_sop_step := st.action
            step_number := step_idx + 1
            similarity_score := pyRound s 3
            is_deviation := isDeviation threshold s
              (check_tool_compliance a.tools_visible st.required_tools).is_compliant
              (check_safety_equipment a.safety_equipment sop.safety_equipment).is_compliant
            severity := reportedSeverity threshold s
              (check_tool_compliance a.tools_visible st.required_tools).is_compliant
              (check_safety_equipment a.safety_equipment sop.safety_equipment).is_compliant
            tool_compliance := check_tool_compliance a.tools_visible st.required_tools
            safety_compliance := check_safety_equipment a.safety_equipment sop.safety_equipment
            location := a.location_zone
            potential_hazards := a.potential_hazards } := by
      unfold analyze_action
      rw [hm]
    rw [key] at h
    exact (Except.ok.inj h).symm

/-- Every result in a successful `analyze_sequence` run comes from
`analyze_action` on some observation of the input (with its loop index). -/
theorem analyzeGo_mem (actions : List Observation) : ∀ (simf : String → String → ℚ)
    (threshold : ℚ) (sop : Sop) (i : ℕ) (res : List EvalResult),
    analyzeGo simf threshold sop i actions = Except.ok res →
    ∀ r ∈ res, ∃ j a, analyze_action simf threshold sop j a = Except.ok r := by
  induction actions with
  | nil =>
    intro simf threshold sop i res h r hr
    simp only [analyzeGo, Except.ok.injEq] at h
    subst h
    exact absurd hr (List.not_mem_nil r)
  | cons a rest ih =>
    intro simf threshold sop i res h r hr
    unfold analyzeGo at h
    cases ha : analyze_action simf threshold sop i a with
    | error e => rw [ha] at h; exact absurd h (by simp)
    | ok r0 =>
      rw [ha] at h
      cases hrest : analyzeGo simf threshold sop (i + 1) rest with
      | error e => rw [hrest] at h; exact absurd h (by simp)
      | ok rs =>
        rw [hrest] at h
        simp only [Except.ok.injEq] at h
        subst h
        rcases List.mem_cons.mp hr with hr0 | hrs
        · exact ⟨i, a, by rw [ha, hr0]⟩
        · exact ih simf threshold sop (i + 1) rs hrest r hrs

/-! ### The severity classifier -/

/-- Severity rank for the ordering `none < medium < high` used by the
specification; the classifier never reports `"low"` (proved below), and any
other string ranks lowest. -/
def severityRank (sev : String) : ℕ :=
if sev = "high" then 2 else if sev = "medium" then 1 else 0

/-- Modelled from the spec (claim C1 wording): the ordered decision rule
list, first matching rule winning: `similarity < 0.5` gives `high`;
otherwise `similarity < threshold` gives `medium`; otherwise non-compliant
safety gives `high`; otherwise non-compliant tools gives `medium`; otherwise
the observation is not a deviation and the reported severity is `none`. -/
def specRuleSeverity (threshold similarity : ℚ) (tool_ok safety_ok : Bool) : String :=
if similarity < 1/2 then "high"
else if similarity < threshold then "medium"
else if !safety_ok then "high"
else if !tool_ok then "medium"
else "none"

theorem classify_low_not_deviation (threshold similarity : ℚ) (tool_ok safety_ok : Bool)
    (h : classifySeverity threshold similarity tool_ok safety_ok = "low") :
    isDeviation threshold similarity tool_ok safety_ok = false := by
  unfold classifySeverity at h
  unfold isDeviation
  split_ifs at h with h1 h2 h3 h4
  · exact absurd h (by decide)
  · exact absurd h (by decide)
  · exact absurd h (by decide)
  · exact absurd h (by decide)
  · simp only [Bool.not_eq_true] at h3 h4
    simp [h2, h3, h4]

theorem reported_severity_mem (threshold similarity : ℚ) (tool_ok safety_ok : Bool) :
    reportedSeverity threshold similarity tool_ok safety_ok = "none" ∨
    reportedSeverity threshold similarity tool_ok safety_ok = "medium" ∨
    reportedSeverity threshold similarity tool_ok safety_ok = "high" := by
  unfold reportedSeverity
  by_cases hdev : isDeviation threshold similarity tool_ok safety_ok
  · rw [if_pos hdev]
    unfold classifySeverity
    unfold isDeviation at hdev
    split_ifs with h1 h2 h3 h4
    · exact Or.inr (Or.inr rfl)
    · exact Or.inr (Or.inl rfl)
    · exact Or.inr (Or.inr rfl)
    · exact Or.inr (Or.inl rfl)
    · exfalso
      simp only [Bool.not_eq_true] at h3 h4
      simp [h2, h3, h4] at hdev
  · rw [if_neg hdev]
    exact Or.inl rfl

theorem isDeviation_iff (threshold similarity : ℚ) (tool_ok safety_ok : Bool) :
    isDeviation threshold similarity tool_ok safety_ok = true ↔
      (similarity < threshold ∨ tool_ok = false ∨ safety_ok = false) := by
  unfold isDeviation
  cases tool_ok <;> cases safety_ok <;> simp

theorem deviation_severity (threshold similarity : ℚ) (tool_ok safety_ok : Bool)
    (hdev : isDeviation threshold similarity tool_ok safety_ok = true) :
    reportedSeverity threshold similarity tool_ok safety_ok = "high" ∨
    reportedSeverity threshold similarity tool_ok safety_ok = "medium" := by
  unfold reportedSeverity
  rw [if_pos hdev]
  unfold classifySeverity
  unfold isDeviation at hdev
  split_ifs with h1 h2 h3 h4
  · exact Or.inl rfl
  · exact Or.inr rfl
  · exact Or.inl rfl
  · exact Or.inr rfl
  · exfalso
    simp only [Bool.not_eq_true] at h3 h4
    simp [h2, h3, h4] at hdev

theorem reported_eq_specRule (threshold similarity : ℚ) (tool_ok safety_ok : Bool)
    (hthr : 1/2 ≤ threshold) :
    reportedSeverity threshold similarity tool_ok safety_ok
      = specRuleSeverity threshold similarity tool_ok safety_ok := by
  unfold reportedSeverity isDeviation classifySeverity specRuleSeverity
  cases tool_ok <;> cases safety_ok <;> split_ifs <;> simp_all <;> linarith

theorem rank_reported_tool_ok_safety_ok (threshold s : ℚ) :
    severityRank (reportedSeverity threshold s true true)
      = if s < threshold then (if s < 1/2 then 2 else 1) else 0 := by
  unfold reportedSeverity isDeviation classifySeverity severityRank
  split_ifs <;> first | rfl | simp_all

theorem rank_reported_tool_bad_safety_ok (threshold s : ℚ) :
    severityRank (reportedSeverity threshold s false true)
      = if s < 1/2 then 2 else 1 := by
  unfold reportedSeverity isDeviation classifySeverity severityRank
  split_ifs <;> first | rfl | simp_all

/-- With a compliant safety check, a lower similarity never yields a lower
severity rank.  (With a non-compliant safety check this fails: scores at or
above the threshold hit the safety rule and report `high`, while scores in
`[0.5, threshold)` report `medium`.) -/
theorem reported_antitone_safety_ok (threshold s1 s2 : ℚ) (tool_ok : Bool)
    (h : s2 ≤ s1) :
    severityRank (reportedSeverity threshold s1 tool_ok true)
      ≤ severityRank (reportedSeverity threshold s2 tool_ok true) := by
  cases tool_ok
  · rw [rank_reported_tool_bad_safety_ok, rank_reported_tool_bad_safety_ok]
    split_ifs <;> first | omega | (exfalso; linarith)
  · rw [rank_reported_tool_ok_safety_ok, rank_reported_tool_ok_safety_ok]
    split_ifs <;> first | omega | (exfalso; linarith)

/-! ### The compliance checks -/

theorem check_tool_compliance_iff (observed required : List String) :
    (check_tool_compliance observed required).is_compliant = true ↔
      ∀ tool ∈ required, tool.toLower ∈ observed.map String.toLower := by
  unfold check_tool_compliance
  simp only [beq_iff_eq, List.length_eq_zero, List.filter_eq_nil_iff, Bool.not_eq_true,
    Bool.not_eq_false', List.contains, List.elem_iff]
  constructor
  · intro h tool htool
    exact h tool.toLower (List.mem_map_of_mem String.toLower htool)
  · intro h x hx
    rcases List.mem_map.mp hx with ⟨tool, htool, rfl⟩
    exact h tool htool

theorem check_safety_equipment_iff (observed required : List String) :
    (check_safety_equipment observed required).is_compliant = true ↔
      ∀ eq ∈ required, eq.toLower ∈ observed.map String.toLower := by
  unfold check_safety_equipment
  simp only [beq_iff_eq, List.length_eq_zero, List.filter_eq_nil_iff, Bool.not_eq_true,
    Bool.not_eq_false', List.contains, List.elem_iff]
  constructor
  · intro h eq heq
    exact h eq.toLower (List.mem_map_of_mem String.toLower heq)
  · intro h x hx
    rcases List.mem_map.mp hx with ⟨eq, heq, rfl⟩
    exact h eq heq

/-! ### The sequence aggregator -/

/-- If every deviating result carries severity `"high"` or `"medium"`, the
two severity buckets of the summary partition the deviating subset. -/
theorem filter_severity_partition (l : List EvalResult)
    (hsev : ∀ r ∈ l, r.is_deviation = true →
      r.severity = "high" ∨ r.severity = "medium") :
    (l.filter (fun r => r.is_deviation)).length
      = ((l.filter (fun r => r.is_deviation)).filter (fun r => r.severity == "high")).length
        + ((l.filter (fun r => r.is_deviation)).filter
            (fun r => r.severity == "medium")).length := by
  induction l with
  | nil => rfl
  | cons r rest ih =>
    have hrest : ∀ x ∈ rest, x.is_deviation = true →
        x.severity = "high" ∨ x.severity = "medium" :=
      fun x hx => hsev x (List.mem_cons_of_mem r hx)
    by_cases hd : r.is_deviation = true
    · rcases hsev r (List.mem_cons_self r rest) hd with hh | hm
      · simp only [List.filter_cons, hd, if_pos, hh, List.length_cons]
        simp only [show (("high" == "high") = true) from rfl,
          show (("high" == "medium") = false) from rfl, if_true,
          Bool.false_eq_true, if_false, List.length_cons]
        rw [ih hrest]
        omega
      · simp only [List.filter_cons, hd, if_pos, hm, List.length_cons]
        simp only [show (("medium" == "high") = false) from rfl,
          show (("medium" == "medium") = true) from rfl, if_true,
          Bool.false_eq_true, if_false, List.length_cons]
        rw [ih hrest]
        omega
    · have hd2 : r.is_deviation = false := by
        cases hr : r.is_deviation
        · rfl
        · exact absurd hr hd
      simp only [List.filter_cons, hd2, Bool.false_eq_true, if_false]
      exact ih hrest

theorem generate_summary_compliance_rate (rs : List EvalResult) (h : rs ≠ []) :
    (generate_summary rs).compliance_rate
      = pyRound (100 * ((rs.length : ℚ)
          - ((rs.filter (fun r => r.is_deviation)).length : ℚ)) / (rs.length : ℚ)) 1 := by
  have hpos : 0 < rs.length := List.length_pos.mpr h
  have key : (generate_summary rs).compliance_rate
      = if rs.length > 0 then
          pyRound ((((rs.length : ℚ))
            - ((rs.filter (fun r => r.is_deviation)).length : ℚ)) / (rs.length : ℚ) * 100) 1
        else 0 := rfl
  rw [key, if_pos hpos]
  congr 1
  ring

theorem generate_summary_empty :
    (generate_summary []).total_frames_analyzed = 0 ∧
    (generate_summary []).compliance_rate = 0 ∧
    (generate_summary []).average_similarity = 0 := by
  refine ⟨rfl, rfl, ?_⟩
  show pyRound 0 3 = 0
  unfold pyRound roundHalfEven
  norm_num

theorem reported_none_of_not_deviation (threshold similarity : ℚ) (tool_ok safety_ok : Bool)
    (h : isDeviation threshold similarity tool_ok safety_ok = false) :
    reportedSeverity threshold similarity tool_ok safety_ok = "none" := by
  unfold reportedSeverity
  rw [h]
  rfl

theorem isDeviation_iff_specRule (threshold similarity : ℚ) (tool_ok safety_ok : Bool)
    (hthr : 1/2 ≤ threshold) :
    isDeviation threshold similarity tool_ok safety_ok = true ↔
      specRuleSeverity threshold similarity tool_ok safety_ok ≠ "none" := by
  unfold isDeviation specRuleSeverity
  cases tool_ok <;> cases safety_ok <;> split_ifs <;> simp_all <;> linarith

/-! ### Concrete fixtures -/

/-- A deterministic stub Similarity Provider returning a constant score. -/
def simC : String → String → ℚ := fun _ _ => 2/5

def sopC : Sop :=
{ steps := [{ action := "measure", required_tools := ["tape"] }]
  safety_equipment := ["hat"] }

def obsC : Observation :=
{ worker_action := "act", timestamp := 5, tools_visible := ["tape"]
  safety_equipment := ["hat"], location_zone := "z", potential_hazards := [] }

/-- The result list of a run with the default threshold 0.70 on the fixture
observation (constant similarity 0.4, both checks compliant). -/
def resC1 : List EvalResult :=
(analyze_sequence simC (7/10) [obsC] sopC).toOption.getD []

def stepA : SopStep := { action := "a", required_tools := [] }

/-- Two steps with identical descriptions, so their similarity scores tie. -/
def stepsTie : List SopStep := [stepA, { action := "a", required_tools := ["x"] }]

def toolOkC : ToolCheck :=
{ is_compliant := true, missing_tools := [], wrong_tools := [], observed := [], required := [] }

def safetyOkC : SafetyCheck :=
{ is_compliant := true, missing_equipment := [], observed := [], required := [] }

/-- Fixture result record for aggregator claims. -/
def mkRes (ts sim : ℚ) (dev : Bool) (sev : String) : EvalResult :=
{ frame_number := 0, timestamp := ts, observed_action := "", matched_sop_step := ""
  step_number := 1, similarity_score := sim, is_deviation := dev, severity := sev
  tool_compliance := toolOkC, safety_compliance := safetyOkC, location := ""
  potential_hazards := [] }

/-- Three results, one deviating: the aggregation scenario of the spec. -/
def rsC7 : List EvalResult :=
[mkRes 1 (9/10) false "none", mkRes 10 (2/5) true "high", mkRes 20 (17/20) false "none"]

/-! ### Claim theorems -/

/-- C1 (counterexample): with threshold 0.3 (inside the configured range
(0,1)) and best-match similarity 0.4, rule 1 of the claimed rule list fires
(`0.4 < 0.5`, verdict `high`, a deviation), but `analyze_sequence` reports
severity `"none"` and no deviation, because the `is_deviation` test does not
include the `similarity < 0.5` rule. -/
theorem C1_counterexample :
    (analyze_sequence simC (3/10) [obsC] sopC).map
        (fun rs => rs.map (fun r => (r.severity, r.is_deviation)))
      = Except.ok [("none", false)] ∧
    specRuleSeverity (3/10) (2/5) true true = "high" := by
  constructor
  · with_unfolding_all rfl
  · with_unfolding_all rfl

/-- C1 (amended): provided the threshold is at least 0.5 (the default 0.70
satisfies this), every result of `analyze_sequence` carries exactly the
severity of the claimed ordered rule list, evaluated at the best-match score
and the two compliance outcomes, and is flagged as a deviation exactly when
that rule list does not end in `none`.  (For thresholds below 0.5 the code
reports `none` on observations where rule 1 matches but no deviation is
flagged, as the counterexample shows.) -/
theorem C1_rule_list_amended (simf : String → String → ℚ) (threshold : ℚ)
    (video_actions : List Observation) (sop : Sop) (res : List EvalResult)
    (hthr : 1/2 ≤ threshold)
    (h : analyze_sequence simf threshold video_actions sop = Except.ok res) :
    ∀ r ∈ res, ∃ idx s st,
      find_best_match simf r.observed_action sop.steps = Except.ok (idx, s, st) ∧
      r.severity = specRuleSeverity threshold s
        r.tool_compliance.is_compliant r.safety_compliance.is_compliant ∧
      (r.is_deviation = true ↔ specRuleSeverity threshold s
        r.tool_compliance.is_compliant r.safety_compliance.is_compliant ≠ "none") := by
  intro r hr
  obtain ⟨j, a, ha⟩ := analyzeGo_mem video_actions simf threshold sop 0 res h r hr
  obtain ⟨idx, s, st, hfm, hrec⟩ := analyze_action_spec simf threshold sop j a r ha
  subst hrec
  exact ⟨idx, s, st, hfm,
    reported_eq_specRule threshold s _ _ hthr,
    isDeviation_iff_specRule threshold s _ _ hthr⟩

/-- The single result of the fixture run. -/
def r0C : EvalResult := resC1.getD 0 (mkRes 0 0 false "none")

/-- C1 (witness): the amended theorem applied to the fixture run with the
default threshold 0.70, at its single result. -/
theorem C1_rule_list_witness :
    ∃ idx s st,
      find_best_match simC r0C.observed_action sopC.steps = Except.ok (idx, s, st) ∧
      r0C.severity = specRuleSeverity (7/10) s
        r0C.tool_compliance.is_compliant r0C.safety_compliance.is_compliant ∧
      (r0C.is_deviation = true ↔ specRuleSeverity (7/10) s
        r0C.tool_compliance.is_compliant r0C.safety_compliance.is_compliant ≠ "none") :=
  C1_rule_list_amended simC (7/10) [obsC] sopC resC1 (by norm_num)
    (by with_unfolding_all rfl) r0C (by with_unfolding_all decide)

/-- C2: a result of `analyze_sequence` is flagged as a deviation exactly when
its best-match similarity is below the threshold, or its tool check is
non-compliant, or its safety check is non-compliant. -/
theorem C2_is_deviation_iff (simf : String → String → ℚ) (threshold : ℚ)
    (video_actions : List Observation) (sop : Sop) (res : List EvalResult)
    (h : analyze_sequence simf threshold video_actions sop = Except.ok res) :
    ∀ r ∈ res, ∃ idx s st,
      find_best_match simf r.observed_action sop.steps = Except.ok (idx, s, st) ∧
      (r.is_deviation = true ↔
        (s < threshold ∨ r.tool_compliance.is_compliant = false ∨
          r.safety_compliance.is_compliant = false)) := by
  intro r hr
  obtain ⟨j, a, ha⟩ := analyzeGo_mem video_actions simf threshold sop 0 res h r hr
  obtain ⟨idx, s, st, hfm, hrec⟩ := analyze_action_spec simf threshold sop j a r ha
  subst hrec
  exact ⟨idx, s, st, hfm, isDeviation_iff threshold s _ _⟩

/-- C2 (witness): the deviation test on the fixture run, at its single
result. -/
theorem C2_is_deviation_witness :
    ∃ idx s st,
      find_best_match simC r0C.observed_action sopC.steps = Except.ok (idx, s, st) ∧
      (r0C.is_deviation = true ↔
        (s < 7/10 ∨ r0C.tool_compliance.is_compliant = false ∨
          r0C.safety_compliance.is_compliant = false)) :=
  C2_is_deviation_iff simC (7/10) [obsC] sopC resC1 (by with_unfolding_all rfl)
    r0C (by with_unfolding_all decide)

/-- C3 (counterexample): with the default threshold 0.70, a compliant tool
check and a non-compliant safety check, similarity 0.8 reports `"high"`
(rank 2, safety rule) while the lower similarity 0.6 reports `"medium"`
(rank 1, rule 2): decreasing the similarity score decreased the severity
rank, refuting the claimed monotonicity. -/
theorem C3_counterexample :
    ((3:ℚ)/5 ≤ 4/5) ∧
    severityRank (reportedSeverity (7/10) (3/5) true false)
      < severityRank (reportedSeverity (7/10) (4/5) true false) := by
  constructor
  · norm_num
  · with_unfolding_all decide

/-- C3 (amended): the monotonicity does hold whenever the safety check is
compliant: for a fixed tool-check outcome and compliant safety check,
decreasing the similarity score never decreases the severity rank under
`none < medium < high`.  (With a non-compliant safety check it fails, as the
counterexample shows; the spec itself flags this rule-ordering as a
surprising interaction.) -/
theorem C3_antitone_amended (threshold s1 s2 : ℚ) (tool_ok : Bool) (h : s2 ≤ s1) :
    severityRank (reportedSeverity threshold s1 tool_ok true)
      ≤ severityRank (reportedSeverity threshold s2 tool_ok true) :=
  reported_antitone_safety_ok threshold s1 s2 tool_ok h

/-- C3 (witness): the amended monotonicity at concrete scores 0.9 and 0.6
with the default threshold. -/
theorem C3_antitone_witness :
    severityRank (reportedSeverity (7/10) (9/10) true true)
      ≤ severityRank (reportedSeverity (7/10) (3/5) true true) :=
  C3_antitone_amended (7/10) (9/10) (3/5) true (by norm_num)

/-- C4 (counterexample): on an empty step list `find_best_match` fails with
the tensor library runtime error raised by `argmax` on an empty tensor, not
with the `InvalidInput` validation error required by the claim; the function
performs no precondition check at all. -/
theorem C4_counterexample :
    find_best_match simC "x" [] = Except.error SopError.runtimeEmptyArgmax ∧
    SopError.runtimeEmptyArgmax ≠ SopError.invalidInput := by
  constructor
  · rfl
  · decide

/-- C4 (amended): `find_best_match` does fail on every empty step list — but
with the unstructured runtime error from `argmax` of an empty tensor rather
than an `InvalidInput` validation error — and for every non-empty step list
it returns an index within `[0, len(steps))`. -/
theorem C4_matcher_amended :
    (∀ (simf : String → String → ℚ) (action : String),
      find_best_match simf action [] = Except.error SopError.runtimeEmptyArgmax) ∧
    (∀ (simf : String → String → ℚ) (action : String) (steps : List SopStep),
      steps ≠ [] → ∃ idx s st,
        find_best_match simf action steps = Except.ok (idx, s, st) ∧
        idx < steps.length) := by
  constructor
  · intro simf action
    rfl
  · intro simf action steps hne
    cases steps with
    | nil => exact absurd rfl hne
    | cons st0 sts =>
      have key : find_best_match simf action (st0 :: sts)
          = Except.ok
            ((argmaxGo 0 (simf action st0.action) 1
                ((sts.map (fun step => step.action)).map (fun d => simf action d))).1,
              ((simf action st0.action) ::
                  (sts.map (fun step => step.action)).map (fun d => simf action d)).getD
                (argmaxGo 0 (simf action st0.action) 1
                  ((sts.map (fun step => step.action)).map (fun d => simf action d))).1 0,
              (st0 :: sts).getD
                (argmaxGo 0 (simf action st0.action) 1
                  ((sts.map (fun step => step.action)).map (fun d => simf action d))).1
                { action := "", required_tools := [] }) := rfl
      obtain ⟨hi, -⟩ := find_best_match_spec simf action (st0 :: sts) _ _ _ key
      exact ⟨_, _, _, key, hi⟩

/-- C4 (witness): the amended theorem applied to a singleton step list. -/
theorem C4_matcher_witness :
    ∃ idx s st,
      find_best_match simC "x" [stepA] = Except.ok (idx, s, st) ∧
      idx < [stepA].length :=
  C4_matcher_amended.2 simC "x" [stepA] (by simp [stepA])

/-- C5: on any successful `find_best_match`, the returned score is the
maximum similarity over all steps, the returned step is the one at the
returned index, and every index attaining the maximum score is at least the
returned one — so ties on the maximum (in particular identical descriptions)
resolve to the smallest index, deterministically. -/
theorem C5_tie_break (simf : String → String → ℚ) (action : String)
    (steps : List SopStep) (idx : ℕ) (s : ℚ) (st : SopStep)
    (h : find_best_match simf action steps = Except.ok (idx, s, st)) :
    ∃ hi : idx < steps.length,
      st = steps[idx] ∧
      (∀ j (hj : j < steps.length), simf action (steps[j]).action ≤ s) ∧
      (∀ j (hj : j < steps.length), simf action (steps[j]).action = s → idx ≤ j) := by
  obtain ⟨hi, hst, hs, hmax, hleast⟩ := find_best_match_spec simf action steps idx s st h
  exact ⟨hi, hst, hmax, hleast⟩

/-- C5 (witness): two steps with identical description `"a"` tie on the
maximum score; the matcher returns the earlier one (index 0). -/
theorem C5_tie_break_witness :
    ∃ hi : 0 < stepsTie.length,
      stepA = stepsTie[0] ∧
      (∀ j (hj : j < stepsTie.length), simC "x" (stepsTie[j]).action ≤ 2/5) ∧
      (∀ j (hj : j < stepsTie.length), simC "x" (stepsTie[j]).action = 2/5 → 0 ≤ j) :=
  C5_tie_break simC "x" stepsTie 0 (2/5) stepA (by with_unfolding_all rfl)

/-- C6: the tool check is compliant exactly when every required tool,
lower-cased, occurs among the lower-cased observed tools; an empty required
list is always compliant with empty `missing_tools` (so extraneous observed
tools alone never cause non-compliance). -/
theorem C6_tool_compliance (observed required : List String) :
    ((check_tool_compliance observed required).is_compliant = true ↔
      ∀ tool ∈ required, tool.toLower ∈ observed.map String.toLower) ∧
    (check_tool_compliance observed []).is_compliant = true ∧
    (check_tool_compliance observed []).missing_tools = [] := by
  refine ⟨check_tool_compliance_iff observed required, ?_, rfl⟩
  exact (check_tool_compliance_iff observed []).mpr (by simp)

/-- C6 (witness): the characterisation applied to observed `["Drill"]`,
required `["drill", "screws"]` (the spec example: non-compliant, `screws`
missing). -/
theorem C6_tool_compliance_witness :
    (((check_tool_compliance ["Drill"] ["drill", "screws"]).is_compliant = true ↔
      ∀ tool ∈ ["drill", "screws"],
        tool.toLower ∈ (["Drill"] : List String).map String.toLower) ∧
    (check_tool_compliance ["Drill"] []).is_compliant = true ∧
    (check_tool_compliance ["Drill"] []).missing_tools = []) ∧
    (check_tool_compliance ["Drill"] ["drill", "screws"]).is_compliant = false ∧
    (check_tool_compliance ["Drill"] ["drill", "screws"]).missing_tools = ["screws"] := by
  refine ⟨C6_tool_compliance ["Drill"] ["drill", "screws"], ?_, ?_⟩
  · with_unfolding_all rfl
  · with_unfolding_all rfl

/-- C7 (counterexample): on three results with one deviation the code
reports `compliance_rate = 66.7` — the exact ratio `100·(3−1)/3 = 200/3`
rounded to one decimal — which differs from the exact ratio stated by the
claim. -/
theorem C7_counterexample :
    (generate_summary rsC7).total_frames_analyzed = 3 ∧
    (rsC7.filter (fun r => r.is_deviation)).length = 1 ∧
    (generate_summary rsC7).compliance_rate = 667/10 ∧
    (667:ℚ)/10 ≠ 100 * ((3:ℚ) - 1) / 3 := by
  refine ⟨rfl, rfl, ?_, by norm_num⟩
  with_unfolding_all rfl

/-- C7 (amended): `generate_summary []` yields zero totals, compliance rate
and average similarity without failing, and for every non-empty result list
the compliance rate is `100·(total − deviations)/total` rounded to one
decimal (Python `round(x, 1)`). -/
theorem C7_summary_amended :
    ((generate_summary []).total_frames_analyzed = 0 ∧
     (generate_summary []).compliance_rate = 0 ∧
     (generate_summary []).average_similarity = 0) ∧
    ∀ rs : List EvalResult, rs ≠ [] →
      (generate_summary rs).compliance_rate
        = pyRound (100 * ((rs.length : ℚ)
            - ((rs.filter (fun r => r.is_deviation)).length : ℚ)) / (rs.length : ℚ)) 1 :=
  ⟨generate_summary_empty, fun rs h => generate_summary_compliance_rate rs h⟩

/-- C7 (witness): the amended rate formula on the three-result fixture. -/
theorem C7_summary_witness :
    (generate_summary rsC7).compliance_rate
      = pyRound (100 * ((rsC7.length : ℚ)
          - ((rsC7.filter (fun r => r.is_deviation)).length : ℚ)) / (rsC7.length : ℚ)) 1 :=
  C7_summary_amended.2 rsC7 (by unfold rsC7; exact List.cons_ne_nil _ _)

/-- C8 (counterexample): threshold `1.5` lies outside `(0, 1)`, yet the
constructor accepts it unchanged and returns no `ConfigurationError`: the
code performs no range validation at setup time. -/
theorem C8_counterexample :
    ¬ ((0 : ℚ) < 3/2 ∧ (3 : ℚ)/2 < 1) ∧
    initComparator (some (3/2)) = Except.ok { threshold := 3/2 } := by
  constructor
  · norm_num
  · rfl

/-- C8 (amended): `SOPComparator.__init__` performs no validation of the
threshold whatsoever: for every environment value (in range or not) it
succeeds, storing the value unchanged (or the default 0.70 when the variable
is unset); no `ConfigurationError` path exists in the code. -/
theorem C8_no_validation_amended (env_threshold : Option ℚ) :
    initComparator env_threshold
      = Except.ok { threshold := env_threshold.getD (7/10) } :=
  rfl

/-- C9: in the summary of any successful `analyze_sequence` run, the severity
buckets count only deviating results (a non-deviating result is reported as
`"none"` and lands in neither bucket), and the `high` and `medium` buckets
together account for every deviation:
`total_deviations = high_severity_count + medium_severity_count`. -/
theorem C9_severity_partition (simf : String → String → ℚ) (threshold : ℚ)
    (video_actions : List Observation) (sop : Sop) (res : List EvalResult)
    (h : analyze_sequence simf threshold video_actions sop = Except.ok res) :
    (∀ r ∈ res, r.is_deviation = false → r.severity = "none") ∧
    (generate_summary res).high_severity_count
      = ((res.filter (fun r => r.is_deviation)).filter
          (fun r => r.severity == "high")).length ∧
    (generate_summary res).medium_severity_count
      = ((res.filter (fun r => r.is_deviation)).filter
          (fun r => r.severity == "medium")).length ∧
    (generate_summary res).total_deviations
      = (generate_summary res).high_severity_count
        + (generate_summary res).medium_severity_count := by
  have hshape : ∀ r ∈ res, ∃ threshold2 s tool safety,
      threshold2 = threshold ∧
      r.is_deviation = isDeviation threshold s tool safety ∧
      r.severity = reportedSeverity threshold s tool safety := by
    intro r hr
    obtain ⟨j, a, ha⟩ := analyzeGo_mem video_actions simf threshold sop 0 res h r hr
    obtain ⟨idx, s, st, hfm, hrec⟩ := analyze_action_spec simf threshold sop j a r ha
    subst hrec
    exact ⟨threshold, s, _, _, rfl, rfl, rfl⟩
  refine ⟨?_, rfl, rfl, ?_⟩
  · intro r hr hdev
    obtain ⟨t2, s, tool, safety, ht2, hd, hs⟩ := hshape r hr
    rw [hs]
    rw [hd] at hdev
    exact reported_none_of_not_deviation threshold s tool safety hdev
  · have hsev : ∀ r ∈ res, r.is_deviation = true →
        r.severity = "high" ∨ r.severity = "medium" := by
      intro r hr hdev
      obtain ⟨t2, s, tool, safety, ht2, hd, hs⟩ := hshape r hr
      rw [hs]
      rw [hd] at hdev
      exact deviation_severity threshold s tool safety hdev
    exact filter_severity_partition res hsev

/-- C9 (witness): the partition equation on the fixture run (one deviating
result of severity `"high"`). -/
theorem C9_severity_partition_witness :
    (∀ r ∈ resC1, r.is_deviation = false → r.severity = "none") ∧
    (generate_summary resC1).high_severity_count
      = ((resC1.filter (fun r => r.is_deviation)).filter
          (fun r => r.severity == "high")).length ∧
    (generate_summary resC1).medium_severity_count
      = ((resC1.filter (fun r => r.is_deviation)).filter
          (fun r => r.severity == "medium")).length ∧
    (generate_summary resC1).total_deviations
      = (generate_summary resC1).high_severity_count
        + (generate_summary resC1).medium_severity_count :=
  C9_severity_partition simC (7/10) [obsC] sopC resC1 (by with_unfolding_all rfl)

/-- C10: every result of a successful `analyze_sequence` run reports a
severity in `{none, medium, high}`; the ladder value `"low"` is never
emitted because the branch assigning it implies `is_deviation` is false, in
which case the reported severity is replaced by `"none"`. -/
theorem C10_severity_range (simf : String → String → ℚ) (threshold : ℚ)
    (video_actions : List Observation) (sop : Sop) (res : List EvalResult)
    (h : analyze_sequence simf threshold video_actions sop = Except.ok res) :
    (∀ r ∈ res, r.severity = "none" ∨ r.severity = "medium" ∨ r.severity = "high") ∧
    (∀ (t s : ℚ) (tool_ok safety_ok : Bool),
      classifySeverity t s tool_ok safety_ok = "low" →
        isDeviation t s tool_ok safety_ok = false) := by
  refine ⟨?_, classify_low_not_deviation⟩
  intro r hr
  obtain ⟨j, a, ha⟩ := analyzeGo_mem video_actions simf threshold sop 0 res h r hr
  obtain ⟨idx, s, st, hfm, hrec⟩ := analyze_action_spec simf threshold sop j a r ha
  subst hrec
  exact reported_severity_mem threshold s _ _

/-- C10 (witness): the range of reported severities on the fixture run. -/
theorem C10_severity_range_witness :
    (∀ r ∈ resC1, r.severity = "none" ∨ r.severity = "medium" ∨ r.severity = "high") ∧
    (∀ (t s : ℚ) (tool_ok safety_ok : Bool),
      classifySeverity t s tool_ok safety_ok = "low" →
        isDeviation t s tool_ok safety_ok = false) :=
  C10_severity_range simC (7/10) [obsC] sopC resC1 (by with_unfolding_all rfl)

end SopCompare
